import Mathlib

/-!
Shallow embedding of the authentication and authorization core of the
resume-backend service (src/index.js, with the legacy variant
src/unnamed/part_001 where a claim concerns it).

Users are rows of the `users` table; the store is the list of rows.
Database-assigned values (serial id, created_at) and external
collaborators (bcrypt, crypto.randomBytes, the JWT wire codec) enter the
handlers as explicit parameters, so every definition is executable.
Timestamps are seconds since the epoch, as in the JWT payload.
-/

namespace ResumeBackend

/-- JS String.prototype.toLowerCase, as character-wise lowering. -/
def jsToLower (s : String) : String := ⟨s.data.map Char.toLower⟩

/-- JS String.prototype.trim: strip whitespace from both ends. -/
def jsTrim (s : String) : String :=
  ⟨((s.data.dropWhile Char.isWhitespace).reverse.dropWhile Char.isWhitespace).reverse⟩

/-- JS String.prototype.startsWith. -/
def jsStartsWith (s pre : String) : Bool := pre.data.isPrefixOf s.data

/-- JS String.prototype.slice(n) for nonnegative n. -/
def jsDrop (s : String) (n : Nat) : String := ⟨s.data.drop n⟩

/-- A stored user row of the `users` table: id SERIAL, email TEXT NOT NULL,
password_hash TEXT NOT NULL, full_name TEXT, role TEXT, plan TEXT,
created_at TIMESTAMPTZ (nullable columns are `Option`). -/
structure User where
  id : Nat
  email : String
  passwordHash : String
  fullName : Option String
  role : Option String
  plan : Option String
  createdAt : Nat
deriving Repr, DecidableEq

/-- The credential store: the rows of the `users` table. -/
abbrev Store := List User

/-- A serialized user as every handler of src/index.js builds it:
exactly the six fields id, email, fullName, role, plan, createdAt,
and nothing else (in particular no password hash). -/
structure PublicUser where
  id : Nat
  email : String
  fullName : Option String
  role : Option String
  plan : Option String
  createdAt : Nat
deriving Repr, DecidableEq

/-- The projection applied to a row before it is placed in a response body
(the explicit field list written out in every handler of src/index.js). -/
def toPublicUser (u : User) : PublicUser :=
  { id := u.id
    email := u.email
    fullName := u.fullName
    role := u.role
    plan := u.plan
    createdAt := u.createdAt }

/-- JWT payload produced by jwt.sign in createToken (src/index.js lines
32-38): claims userId and email plus the iat/exp pair added by the library. -/
structure TokenPayload where
  userId : Nat
  email : String
  iat : Nat
  exp : Nat
deriving Repr, DecidableEq

/-- A signed token: the payload together with the key it was signed with
(the signature is modelled by remembering the signing key, which is what
jwt.verify compares against). -/
structure SignedToken where
  payload : TokenPayload
  key : String
deriving Repr, DecidableEq

/-- jwt.sign with expiresIn "30d": thirty days in seconds. -/
def thirtyDays : Nat := 30 * 24 * 60 * 60

/-- createToken (src/index.js lines 32-38): sign claims userId, email with
the process-wide JWT_SECRET; the library stamps iat = now and
exp = now + 30 days. -/
def createToken (secret : String) (now : Nat) (id : Nat) (email : String) : SignedToken :=
  { payload := { userId := id, email := email, iat := now, exp := now + thirtyDays }
    key := secret }

/-- jwt.verify: succeeds with the payload when the signature matches the
key and the current time is strictly before exp; any other case throws,
modelled as `none`. -/
def jwtVerify (secret : String) (now : Nat) (t : SignedToken) : Option TokenPayload :=
  if t.key = secret ∧ now < t.payload.exp then some t.payload else none

/-- req.user as the Access Guard attaches it (src/index.js line 48):
only the token claims id and email. -/
structure Identity where
  id : Nat
  email : String
deriving Repr, DecidableEq

/-- A JSON response: HTTP status plus the body shapes the modelled
handlers emit. -/
inductive RespBody where
  /-- the error envelope: ok false, error message -/
  | err (msg : String)
  /-- ok true with a single serialized user -/
  | okUser (user : PublicUser)
  /-- ok true with token and serialized user (register/login) -/
  | okUserToken (token : SignedToken) (user : PublicUser)
  /-- ok true with a list of serialized users (GET /admin/users) -/
  | okUsers (users : List PublicUser)
  /-- 201 body of POST /admin/users: user plus optional initialPassword
  (a JSON field set to undefined is absent, modelled as `none`) -/
  | okCreated (user : PublicUser) (initialPassword : Option String)
deriving Repr, DecidableEq

/-- An HTTP response: status code and JSON body. -/
structure Response where
  status : Nat
  body : RespBody
deriving Repr, DecidableEq

/-- Outcome of the Access Guard middleware: either it already responded,
or it attached an identity and called next(). -/
inductive AuthResult where
  | reject (resp : Response)
  | proceed (user : Identity)
deriving Repr, DecidableEq

/-- The Access Guard `auth` (src/index.js lines 40-54). The Authorization
header is `Option String` (absent header → empty string, as in
`req.headers.authorization || ""`). `dec` is the wire decoder of the JWT
library: a header token string either parses to a signed token or is
malformed (`none`, which makes jwt.verify throw). The guard touches no
store: it is a function of the header alone. -/
def auth (dec : String → Option SignedToken) (secret : String) (now : Nat)
    (authz : Option String) : AuthResult :=
  let header := authz.getD ""
  if jsStartsWith header "Bearer " then
    let tokenStr := jsDrop header 7
    match dec tokenStr with
    | none => .reject { status := 401, body := .err "invalid token" }
    | some t =>
      match jwtVerify secret now t with
      | none => .reject { status := 401, body := .err "invalid token" }
      | some p => .proceed { id := p.userId, email := p.email }
  else
    .reject { status := 401, body := .err "unauthorized" }

/-- getUserById (src/index.js lines 366-386): SELECT the six public
columns of the row WHERE id = $1, or null. -/
def getUserById (store : Store) (id : Nat) : Option User :=
  store.find? (fun u => u.id == id)

/-- Outcome of the admin guard middleware: respond, or call next(). It
carries no data: the source attaches nothing to the request. -/
inductive GuardResult where
  | reject (resp : Response)
  | proceed
deriving Repr, DecidableEq

/-- requireAdmin (src/index.js lines 388-408): resolve the row by the
token's user id; missing row → 401 "user not found"; then isAdmin from
role super_admin/admin or lowercased email equal to the bootstrap admin
email; not admin → 403 "forbidden"; else next(). -/
def requireAdmin (store : Store) (ident : Identity) : GuardResult :=
  match getUserById store ident.id with
  | none => .reject { status := 401, body := .err "user not found" }
  | some current =>
    let email := jsToLower current.email
    let role := current.role
    let isAdmin := role == some "super_admin" || role == some "admin" ||
      email == "zhangyang_0105@qq.com"
    if isAdmin then .proceed
    else .reject { status := 403, body := .err "forbidden" }

/-- Outcome of a full guard chain: a response sent by a guard, or the
request context granted to the downstream handler. -/
inductive RouteOutcome (α : Type) where
  | halt (resp : Response)
  | grant (ctx : α)
deriving Repr, DecidableEq

/-- The guard chain of an admin route (`auth` then `requireAdmin`), ending
with the request context the downstream handler receives when access is
granted: in the source that context is exactly req.user, the token claims,
because requireAdmin writes nothing to the request. -/
def adminRouteContext (dec : String → Option SignedToken) (secret : String) (now : Nat)
    (store : Store) (authz : Option String) : RouteOutcome Identity :=
  match auth dec secret now authz with
  | .reject r => .halt r
  | .proceed ident =>
    match requireAdmin store ident with
    | .reject r => .halt r
    | .proceed => .grant ident

/-- GET /me (src/index.js lines 296-310): behind `auth`; resolve the row
by the authenticated id; missing row → 404 "user not found"; else 200
with the serialized user. -/
def meEndpoint (dec : String → Option SignedToken) (secret : String) (now : Nat)
    (store : Store) (authz : Option String) : Response :=
  match auth dec secret now authz with
  | .reject r => r
  | .proceed ident =>
    match getUserById store ident.id with
    | none => { status := 404, body := .err "user not found" }
    | some current => { status := 200, body := .okUser (toPublicUser current) }

/-- A wire decoder recognising exactly one token string (used to run the
pipelines on concrete requests). -/
def singleDecoder (s : String) (t : SignedToken) : String → Option SignedToken :=
  fun x => if x == s then some t else none

/-- GET /admin/users (src/index.js lines 446-471): behind `auth` and
`requireAdmin`; the rows ordered by created_at DESC, id DESC. -/
def userListOrder (a b : User) : Bool :=
  Nat.blt b.createdAt a.createdAt || (a.createdAt == b.createdAt && Nat.ble b.id a.id)

/-- The response of GET /admin/users. -/
def adminUsersEndpoint (dec : String → Option SignedToken) (secret : String) (now : Nat)
    (store : Store) (authz : Option String) : Response :=
  match adminRouteContext dec secret now store authz with
  | .halt r => r
  | .grant _ =>
    { status := 200
      body := .okUsers ((store.mergeSort userListOrder).map toPublicUser) }

/-- A request body field read with `typeof x === "string" ? ... : ...`:
`none` stands for a missing field or a non-string value. -/
abbrev BodyField := Option String

/-- The normalization `typeof email === "string" ? email.trim().toLowerCase() : ""`. -/
def normEmailField (e : BodyField) : String :=
  match e with
  | some s => jsToLower (jsTrim s)
  | none => ""

/-- The normalization `typeof password === "string" ? password : ""`. -/
def normStringField (p : BodyField) : String :=
  match p with
  | some s => s
  | none => ""

/-- The normalization `typeof fullName === "string" ? fullName.trim() : ""`. -/
def normTrimField (n : BodyField) : String :=
  match n with
  | some s => jsTrim s
  | none => ""

/-- JS `s || null` on a string, landing in a nullable column. -/
def strOrNull (s : String) : Option String :=
  if s == "" then none else some s

/-- Body of POST /auth/register. A requested `role` may be present in the
JSON body, but the handler destructures only email, password, fullName. -/
structure RegisterBody where
  email : BodyField
  password : BodyField
  fullName : BodyField
  role : BodyField
deriving Repr, DecidableEq

/-- POST /auth/register (src/index.js lines 166-231). `bhash` is the
external bcrypt.hash (salted, cost 10); `nextId` and `now` are the values
the database would assign to id SERIAL and created_at. Returns the
response and the store after the request. -/
def registerHandler (bhash : String → String) (secret : String) (now : Nat)
    (nextId : Nat) (store : Store) (body : RegisterBody) : Response × Store :=
  let trimmedEmail := normEmailField body.email
  let plainPassword := normStringField body.password
  let name := normTrimField body.fullName
  let isSuperAdmin := trimmedEmail == "zhangyang_0105@qq.com"
  let role := if isSuperAdmin then "super_admin" else "user"
  let plan := "free"
  if trimmedEmail == "" || plainPassword == "" then
    ({ status := 400, body := .err "email and password are required" }, store)
  else if store.any (fun u => u.email == trimmedEmail) then
    ({ status := 409, body := .err "email already registered" }, store)
  else
    let passwordHash := bhash plainPassword
    let newUser : User :=
      { id := nextId
        email := trimmedEmail
        passwordHash := passwordHash
        fullName := strOrNull name
        role := some role
        plan := some plan
        createdAt := now }
    let token := createToken secret now newUser.id newUser.email
    ({ status := 201, body := .okUserToken token (toPublicUser newUser) },
      store ++ [newUser])

/-- Body of POST /admin/users. As with register, a requested `role` may be
present, but the handler destructures only email, fullName, plan, password. -/
structure AdminCreateBody where
  email : BodyField
  fullName : BodyField
  plan : BodyField
  password : BodyField
  role : BodyField
deriving Repr, DecidableEq

/-- POST /admin/users, the handler past the guards (src/index.js lines
473-529). `randomPw` is the string crypto.randomBytes(12).toString
would produce for this request. -/
def adminCreateHandler (bhash : String → String) (randomPw : String) (now : Nat)
    (nextId : Nat) (store : Store) (body : AdminCreateBody) : Response × Store :=
  let trimmedEmail := normEmailField body.email
  let name := normTrimField body.fullName
  let rawPlan := normTrimField body.plan
  let plainPassword := normStringField body.password
  if trimmedEmail == "" then
    ({ status := 400, body := .err "email is required" }, store)
  else
    let isSuperAdmin := trimmedEmail == "zhangyang_0105@qq.com"
    let role := if isSuperAdmin then "super_admin" else "user"
    let finalPlan := if rawPlan == "" then "free" else rawPlan
    if store.any (fun u => u.email == trimmedEmail) then
      ({ status := 409, body := .err "email already exists" }, store)
    else
      let initialPassword := if plainPassword == "" then randomPw else plainPassword
      let passwordHash := bhash initialPassword
      let newUser : User :=
        { id := nextId
          email := trimmedEmail
          passwordHash := passwordHash
          fullName := strOrNull name
          role := some role
          plan := some finalPlan
          createdAt := now }
      ({ status := 201
         body := .okCreated (toPublicUser newUser)
           (if plainPassword == "" then some initialPassword else none) },
        store ++ [newUser])

/-- PATCH /me, the handler past `auth` (src/index.js lines 312-364). The
body's fullName is read with a typeof-string check; when present, the SQL
UPDATE sets full_name (trimmed, empty coerced to NULL) on the row WHERE
id = the authenticated id and RETURNING the updated row; no matching
row → 404. -/
def patchMeHandler (store : Store) (uid : Nat) (fullName : BodyField) : Response × Store :=
  match fullName with
  | none => ({ status := 400, body := .err "no fields to update" }, store)
  | some raw =>
    let name := jsTrim raw
    let newVal := strOrNull name
    match store.find? (fun u => u.id == uid) with
    | none => ({ status := 404, body := .err "not found" }, store)
    | some current =>
      let updated : User := { current with fullName := newVal }
      let store2 := store.map (fun v => if v.id == uid then { v with fullName := newVal } else v)
      ({ status := 200, body := .okUser (toPublicUser updated) }, store2)

/-- The process environment: variable name to value. -/
abbrev Env := String → Option String

/-- JS falsiness of `process.env[key]`: unset or the empty string. -/
def envFalsy (env : Env) (key : String) : Bool :=
  match env key with
  | none => true
  | some s => s == ""

/-- The requiredEnv list of src/index.js line 14. -/
def requiredEnvList : List String := ["PGPASSWORD", "JWT_SECRET"]

/-- The configuration the main variant runs with once startup succeeded. -/
structure StartupConfig where
  jwtSecret : String
deriving Repr, DecidableEq

/-- Startup of src/index.js (lines 14-20 and 30): every required variable
must be truthy or the process exits (modelled as `none`); otherwise
JWT_SECRET is taken verbatim from the environment. -/
def indexStartup (env : Env) : Option StartupConfig :=
  if requiredEnvList.any (envFalsy env) then none
  else some { jwtSecret := (env "JWT_SECRET").getD "" }

/-- src/unnamed/part_001 line 22:
`const JWT_SECRET = process.env.JWT_SECRET || "EvalShare-JWT-Secret-Change-This"`.
This variant never exits: it always resolves a signing key. -/
def part001JwtSecret (env : Env) : String :=
  match env "JWT_SECRET" with
  | none => "EvalShare-JWT-Secret-Change-This"
  | some s => if s == "" then "EvalShare-JWT-Secret-Change-This" else s

/-- Replace every stored password hash by an arbitrary function of the
row id (used to state that responses are independent of the hashes). -/
def scrubHashes (f : Nat → String) (store : Store) : Store :=
  store.map (fun u => { u with passwordHash := f u.id })

/-- The admin guard as section 4.4 of the specification describes it,
modelled from the spec for comparison with `requireAdmin`: on success it
is supposed to hand the resolved full record onward. -/
def requireAdminSpec (store : Store) (ident : Identity) : RouteOutcome User :=
  match getUserById store ident.id with
  | none => .halt { status := 401, body := .err "user not found" }
  | some current =>
    if current.role == some "super_admin" || current.role == some "admin" ||
        jsToLower current.email == "zhangyang_0105@qq.com" then .grant current
    else .halt { status := 403, body := .err "forbidden" }

/-! Concrete sample data used by witnesses and counterexamples. -/

/-- A token for user 1 issued at time 0 with key "k". -/
def tokenAlice : SignedToken := createToken "k" 0 1 "alice@example.com"

/-- A decoder recognising the string "tok" as `tokenAlice`. -/
def decAlice : String → Option SignedToken := singleDecoder "tok" tokenAlice

/-- An ordinary (non-admin) stored user with id 1. -/
def sampleAlice : User :=
  { id := 1
    email := "alice@example.com"
    passwordHash := "hash-a"
    fullName := none
    role := some "user"
    plan := some "free"
    createdAt := 0 }

/-- Alice after a self-update setting full_name to "Bob". -/
def patchedAlice : User := { sampleAlice with fullName := some "Bob" }

/-- A second ordinary user, id 2. -/
def sampleNonAdmin : User :=
  { id := 2
    email := "bob@example.com"
    passwordHash := "hash-b"
    fullName := none
    role := some "user"
    plan := some "free"
    createdAt := 0 }

/-- A record with id 1 whose role is admin. -/
def adminRecordA : User :=
  { id := 1
    email := "alice@example.com"
    passwordHash := "hash-1"
    fullName := none
    role := some "admin"
    plan := some "free"
    createdAt := 0 }

/-- A record with the same id and email but different role, plan, name. -/
def adminRecordB : User :=
  { id := 1
    email := "alice@example.com"
    passwordHash := "hash-2"
    fullName := some "Alice"
    role := some "super_admin"
    plan := some "pro"
    createdAt := 3 }

/-- An environment defining both required variables. -/
def sampleEnv : Env :=
  fun k => if k == "PGPASSWORD" then some "pw"
    else if k == "JWT_SECRET" then some "s3cret" else none

/-- A registration body carrying the bootstrap admin email (denormalized)
and a requested role. -/
def regBodyBoot : RegisterBody :=
  { email := some " ZhangYang_0105@QQ.com "
    password := some "pw"
    fullName := none
    role := some "viewer" }

/-- The row registration of `regBodyBoot` inserts with id 9 at time 3
under the hash function `tagHash`. -/
def bootUser : User :=
  { id := 9
    email := "zhangyang_0105@qq.com"
    passwordHash := "H:pw"
    fullName := none
    role := some "super_admin"
    plan := some "free"
    createdAt := 3 }

/-- An injective stand-in for bcrypt.hash in witnesses. -/
def tagHash (s : String) : String := "H:" ++ s

/-- An admin-create body that supplies no password. -/
def adminBodyNoPw : AdminCreateBody :=
  { email := some "carol@example.com"
    fullName := none
    plan := none
    password := none
    role := none }

/-- An empty admin-create body. -/
def adminBodyEmpty : AdminCreateBody :=
  { email := none, fullName := none, plan := none, password := none, role := none }

/-! Helper lemmas shared by several claims. -/

theorem self_ne_append_single {α : Type} (l : List α) (a : α) : l ≠ l ++ [a] := by
  intro h
  have hlen := congrArg List.length h
  simp at hlen

/-- Every response the Access Guard rejects with has status 401 and an
error-envelope body. -/
theorem auth_reject_shape (dec : String → Option SignedToken) (secret : String)
    (now : Nat) (authz : Option String) (r : Response)
    (h : auth dec secret now authz = .reject r) :
    r.status = 401 ∧ ∃ m, r.body = .err m := by
  by_cases hb : jsStartsWith (authz.getD "") "Bearer " = true
  · cases hd : dec (jsDrop (authz.getD "") 7) with
    | none =>
      simp only [auth, hb, if_true, hd, AuthResult.reject.injEq] at h
      subst h
      exact ⟨rfl, "invalid token", rfl⟩
    | some t =>
      cases hv : jwtVerify secret now t with
      | none =>
        simp only [auth, hb, if_true, hd, hv, AuthResult.reject.injEq] at h
        subst h
        exact ⟨rfl, "invalid token", rfl⟩
      | some p =>
        simp [auth, hb, hd, hv] at h
  · simp only [auth, hb, Bool.false_eq_true, if_false, AuthResult.reject.injEq] at h
    subst h
    exact ⟨rfl, "unauthorized", rfl⟩

/-- Every response the admin guard rejects with is an error envelope. -/
theorem requireAdmin_reject_shape (store : Store) (ident : Identity) (r : Response)
    (h : requireAdmin store ident = .reject r) : ∃ m, r.body = .err m := by
  cases hu : getUserById store ident.id with
  | none =>
    simp only [requireAdmin, hu, GuardResult.reject.injEq] at h
    subst h
    exact ⟨"user not found", rfl⟩
  | some current =>
    by_cases hc : (current.role == some "super_admin" || current.role == some "admin" ||
        jsToLower current.email == "zhangyang_0105@qq.com") = true
    · simp [requireAdmin, hu, hc] at h
    · simp only [requireAdmin, hu] at h
      rw [if_neg hc] at h
      simp only [GuardResult.reject.injEq] at h
      subst h
      exact ⟨"forbidden", rfl⟩

/-- When the resolved record exists, the admin guard is the admin test of
the source on that record. -/
theorem requireAdmin_eq (store : Store) (ident : Identity) (u : User)
    (hu : getUserById store ident.id = some u) :
    requireAdmin store ident =
      if u.role == some "super_admin" || u.role == some "admin" ||
          jsToLower u.email == "zhangyang_0105@qq.com"
      then .proceed else .reject { status := 403, body := .err "forbidden" } := by
  unfold requireAdmin
  rw [hu]

/-- Scrubbing hashes commutes with resolution by id. -/
theorem getUserById_scrubHashes (f : Nat → String) (store : Store) (i : Nat) :
    getUserById (scrubHashes f store) i =
      (getUserById store i).map (fun u => { u with passwordHash := f u.id }) := by
  unfold getUserById scrubHashes
  rw [List.find?_map]
  rfl

/-- A guard-chain failure on an admin route is an error envelope. -/
theorem adminRouteContext_error_shape (dec : String → Option SignedToken)
    (secret : String) (now : Nat) (store : Store) (authz : Option String) (r : Response)
    (h : adminRouteContext dec secret now store authz = .halt r) :
    ∃ m, r.body = .err m := by
  cases ha : auth dec secret now authz with
  | reject x =>
    simp only [adminRouteContext, ha, RouteOutcome.halt.injEq] at h
    subst h
    exact (auth_reject_shape dec secret now authz x ha).2
  | proceed ident =>
    cases hg : requireAdmin store ident with
    | reject x =>
      simp only [adminRouteContext, ha, hg, RouteOutcome.halt.injEq] at h
      subst h
      exact requireAdmin_reject_shape store ident x hg
    | proceed => simp [adminRouteContext, ha, hg] at h

/-- C4: verifying a token issued for an identity, at any time strictly
before the token's expiry and under the issuing key, succeeds and returns
the same userId and email, and the expiry encoded in the token is the
issuance time plus 30 days. -/
theorem token_issue_verify_round_trip (secret : String) (t0 t1 : Nat) (id : Nat)
    (email : String) (h : t1 < (createToken secret t0 id email).payload.exp) :
    jwtVerify secret t1 (createToken secret t0 id email) =
      some { userId := id, email := email, iat := t0, exp := t0 + 30 * 24 * 60 * 60 } ∧
    (createToken secret t0 id email).payload.exp = t0 + 30 * 24 * 60 * 60 := by
  have hlt : t1 < t0 + thirtyDays := h
  refine ⟨?_, rfl⟩
  simp [jwtVerify, createToken, thirtyDays] at hlt ⊢
  exact hlt

/-- Witness for C4 at a concrete identity and times. -/
theorem token_issue_verify_round_trip_witness :
    jwtVerify "k" 5 (createToken "k" 0 7 "a@b.c") =
      some { userId := 7, email := "a@b.c", iat := 0, exp := 30 * 24 * 60 * 60 } := by
  have h := (token_issue_verify_round_trip "k" 0 5 7 "a@b.c" (by decide)).1
  simpa using h

/-- C5: a request whose Authorization header does not begin with the
literal prefix "Bearer " is rejected by the Access Guard with 401 and the
identical generic body produced for a missing header, and the response is
independent of the credential store (the guard never touches it). -/
theorem auth_wrong_scheme_rejected (dec : String → Option SignedToken) (secret : String)
    (now : Nat) (h : String) (store1 store2 : Store)
    (hpre : jsStartsWith h "Bearer " = false) :
    auth dec secret now (some h) =
      .reject { status := 401, body := .err "unauthorized" } ∧
    auth dec secret now (some h) = auth dec secret now none ∧
    meEndpoint dec secret now store1 (some h) = meEndpoint dec secret now store2 none := by
  have hnone : jsStartsWith ((none : Option String).getD "") "Bearer " = false := by decide
  have h1 : auth dec secret now (some h) =
      .reject { status := 401, body := .err "unauthorized" } := by
    simp only [auth, Option.getD_some, hpre, Bool.false_eq_true, if_false]
  have h2 : auth dec secret now none =
      .reject { status := 401, body := .err "unauthorized" } := by
    simp only [auth, hnone, Bool.false_eq_true, if_false]
  refine ⟨h1, h1.trans h2.symm, ?_⟩
  simp only [meEndpoint, h1, h2]

/-- Witness for C5: the header "Basic xyz". -/
theorem auth_wrong_scheme_rejected_witness :
    auth decAlice "k" 0 (some "Basic xyz") =
      .reject { status := 401, body := .err "unauthorized" } :=
  (auth_wrong_scheme_rejected decAlice "k" 0 "Basic xyz" [] [sampleAlice] (by decide)).1

/-- C8 counterexample: the repository variant src/unnamed/part_001 does
fall back to a hardcoded default signing key when JWT_SECRET is absent,
so that variant starts with a default key instead of refusing to start. -/
theorem part001_secret_fallback :
    part001JwtSecret (fun _ => none) = "EvalShare-JWT-Secret-Change-This" ∧
    part001JwtSecret (fun _ => none) ≠ "" := by
  exact ⟨rfl, by decide⟩

/-- C8 amended: in the main variant src/index.js a falsy JWT_SECRET is a
fatal startup condition, and a successful startup always uses exactly the
non-empty key from the environment, never a fallback; the legacy variant
part_001 falls back to a hardcoded default. -/
theorem jwt_secret_startup (env : Env) :
    (envFalsy env "JWT_SECRET" = true → indexStartup env = none) ∧
    (∀ cfg, indexStartup env = some cfg →
      env "JWT_SECRET" = some cfg.jwtSecret ∧ cfg.jwtSecret ≠ "") := by
  constructor
  · intro hf
    simp [indexStartup, requiredEnvList, hf]
  · intro cfg hcfg
    by_cases ha : requiredEnvList.any (envFalsy env) = true
    · simp [indexStartup, ha] at hcfg
    · have hfalse : envFalsy env "JWT_SECRET" = false := by
        by_contra hx
        have ht : envFalsy env "JWT_SECRET" = true := eq_true_of_ne_false hx
        exact ha (by simp [requiredEnvList, ht])
      cases hjs : env "JWT_SECRET" with
      | none => simp [envFalsy, hjs] at hfalse
      | some s =>
        have hs : (s == "") = false := by simpa [envFalsy, hjs] using hfalse
        have hcfg2 : cfg = { jwtSecret := s } := by
          simp only [indexStartup, ha, Bool.false_eq_true, if_false, hjs,
            Option.getD_some, Option.some.injEq] at hcfg
          exact hcfg.symm
        subst hcfg2
        exact ⟨rfl, by simpa using hs⟩

/-- Witness for C8 amended at a concrete environment. -/
theorem jwt_secret_startup_witness :
    sampleEnv "JWT_SECRET" = some "s3cret" ∧ "s3cret" ≠ "" :=
  (jwt_secret_startup sampleEnv).2 { jwtSecret := "s3cret" } (by decide)

/-- C2 counterexample: a GET /me request with a valid, unexpired token
whose userId has no record (store empty) responds 404 "user not found",
not 401. -/
theorem me_deleted_user_counterexample :
    meEndpoint decAlice "k" 5 [] (some "Bearer tok") =
      { status := 404, body := .err "user not found" } ∧
    (meEndpoint decAlice "k" 5 [] (some "Bearer tok")).status ≠ 401 := by
  exact ⟨by decide, by decide⟩

/-- C2 amended: a GET /me request rejected by the Access Guard (missing,
malformed, invalid or expired token) gets 401; a request that passes the
guard but whose userId has no record gets 404 "user not found"; a request
that passes and resolves gets 200 with the serialized user. -/
theorem me_endpoint_status (dec : String → Option SignedToken) (secret : String)
    (now : Nat) (store : Store) (authz : Option String) :
    (∀ r, auth dec secret now authz = .reject r →
      meEndpoint dec secret now store authz = r ∧ r.status = 401) ∧
    (∀ ident, auth dec secret now authz = .proceed ident →
      (getUserById store ident.id = none →
        meEndpoint dec secret now store authz =
          { status := 404, body := .err "user not found" }) ∧
      (∀ u, getUserById store ident.id = some u →
        meEndpoint dec secret now store authz =
          { status := 200, body := .okUser (toPublicUser u) })) := by
  constructor
  · intro r hr
    exact ⟨by simp [meEndpoint, hr],
      (auth_reject_shape dec secret now authz r hr).1⟩
  · intro ident hid
    constructor
    · intro hnone
      simp [meEndpoint, hid, hnone]
    · intro u hu
      simp [meEndpoint, hid, hu]

/-- Witness for C2 amended: a resolvable user gets 200. -/
theorem me_endpoint_status_witness :
    meEndpoint decAlice "k" 5 [sampleAlice] (some "Bearer tok") =
      { status := 200, body := .okUser (toPublicUser sampleAlice) } :=
  ((me_endpoint_status decAlice "k" 5 [sampleAlice] (some "Bearer tok")).2
    { id := 1, email := "alice@example.com" } (by decide)).2 sampleAlice (by decide)

/-- C3 counterexample: two stores whose resolved records differ in role,
plan, full name and creation time (adminRecordA vs adminRecordB) both pass
the admin guard, and the downstream handler receives the identical
context, which is only the token claims; the resolved full record is not
attached anywhere. -/
theorem admin_guard_attach_counterexample :
    adminRouteContext decAlice "k" 5 [adminRecordA] (some "Bearer tok") =
      .grant { id := 1, email := "alice@example.com" } ∧
    adminRouteContext decAlice "k" 5 [adminRecordB] (some "Bearer tok") =
      .grant { id := 1, email := "alice@example.com" } ∧
    requireAdminSpec [adminRecordA] { id := 1, email := "alice@example.com" } =
      .grant adminRecordA ∧
    adminRecordA.role ≠ adminRecordB.role ∧ adminRecordA.plan ≠ adminRecordB.plan := by
  refine ⟨by decide, by decide, by decide, by decide, by decide⟩

/-- C3 amended: when the admin guard chain grants access, the context the
downstream handler sees is exactly the token-claim identity attached by
the Access Guard; `requireAdmin` resolves the record only for its own
check and attaches nothing. -/
theorem admin_route_context_is_token_claims (dec : String → Option SignedToken)
    (secret : String) (now : Nat) (store : Store) (authz : Option String)
    (ident : Identity)
    (h : adminRouteContext dec secret now store authz = .grant ident) :
    auth dec secret now authz = .proceed ident := by
  cases ha : auth dec secret now authz with
  | reject r => simp [adminRouteContext, ha] at h
  | proceed i =>
    cases hg : requireAdmin store i with
    | reject r => simp [adminRouteContext, ha, hg] at h
    | proceed =>
      simp only [adminRouteContext, ha, hg, RouteOutcome.grant.injEq] at h
      subst h
      rfl

/-- Witness for C3 amended. -/
theorem admin_route_context_is_token_claims_witness :
    auth decAlice "k" 5 (some "Bearer tok") =
      .proceed { id := 1, email := "alice@example.com" } :=
  admin_route_context_is_token_claims decAlice "k" 5 [adminRecordA] (some "Bearer tok")
    { id := 1, email := "alice@example.com" } (by decide)

/-- C1: past the Access Guard, the admin guard resolves the record by the
token's userId; no record → 401 "user not found"; a resolved record is
granted access iff its role is admin or super_admin or its lowercased
email equals the bootstrap admin email, and otherwise rejected with 403
"forbidden" (not 401). -/
theorem requireAdmin_access_policy (store : Store) (ident : Identity) :
    (getUserById store ident.id = none →
      requireAdmin store ident =
        .reject { status := 401, body := .err "user not found" }) ∧
    (∀ u, getUserById store ident.id = some u →
      ((requireAdmin store ident = .proceed ↔
        (u.role = some "admin" ∨ u.role = some "super_admin" ∨
          jsToLower u.email = "zhangyang_0105@qq.com")) ∧
       (requireAdmin store ident ≠ .proceed →
        requireAdmin store ident =
          .reject { status := 403, body := .err "forbidden" }))) := by
  refine ⟨fun h => by simp [requireAdmin, h], fun u hu => ?_⟩
  rw [requireAdmin_eq store ident u hu]
  by_cases hc : (u.role == some "super_admin" || u.role == some "admin" ||
      jsToLower u.email == "zhangyang_0105@qq.com") = true
  · rw [if_pos hc]
    simp only [Bool.or_eq_true, beq_iff_eq] at hc
    refine ⟨⟨fun _ => ?_, fun _ => rfl⟩, fun hne => absurd rfl hne⟩
    tauto
  · rw [if_neg hc]
    simp only [Bool.or_eq_true, beq_iff_eq, not_or] at hc
    refine ⟨⟨fun hcon => ?_, fun hd => ?_⟩, fun _ => rfl⟩
    · simp at hcon
    · exfalso
      tauto

/-- Witness for C1: a resolved non-admin record is rejected with 403. -/
theorem requireAdmin_access_policy_witness :
    requireAdmin [sampleNonAdmin] { id := 2, email := "bob@example.com" } =
      .reject { status := 403, body := .err "forbidden" } :=
  ((requireAdmin_access_policy [sampleNonAdmin] { id := 2, email := "bob@example.com" }).2
    sampleNonAdmin (by decide)).2 (by decide)

/-- C6: whichever user-creating handler ran (registration or
admin-create), an inserted row's role is super_admin exactly when the
normalized email is the bootstrap admin email, and user otherwise; any
role requested in the body is ignored (the handlers never read it). -/
theorem created_user_role_policy (bhash : String → String) (secret randomPw : String)
    (now nextId : Nat) (store : Store) (rbody : RegisterBody) (abody : AdminCreateBody) :
    (∀ u : User, (registerHandler bhash secret now nextId store rbody).2 = store ++ [u] →
      u.role = some (if normEmailField rbody.email = "zhangyang_0105@qq.com"
        then "super_admin" else "user")) ∧
    (∀ u : User, (adminCreateHandler bhash randomPw now nextId store abody).2 = store ++ [u] →
      u.role = some (if normEmailField abody.email = "zhangyang_0105@qq.com"
        then "super_admin" else "user")) := by
  constructor
  · intro u hu
    by_cases h1 : (normEmailField rbody.email == "" ||
        normStringField rbody.password == "") = true
    · rw [show (registerHandler bhash secret now nextId store rbody).2 = store from by
        simp [registerHandler, h1]] at hu
      exact absurd hu (self_ne_append_single store u)
    · by_cases h2 : store.any (fun v => v.email == normEmailField rbody.email) = true
      · rw [show (registerHandler bhash secret now nextId store rbody).2 = store from by
          simp [registerHandler, h1, h2]] at hu
        exact absurd hu (self_ne_append_single store u)
      · have hs : (registerHandler bhash secret now nextId store rbody).2 = store ++
            [{ id := nextId
               email := normEmailField rbody.email
               passwordHash := bhash (normStringField rbody.password)
               fullName := strOrNull (normTrimField rbody.fullName)
               role := some (if normEmailField rbody.email = "zhangyang_0105@qq.com"
                 then "super_admin" else "user")
               plan := some "free"
               createdAt := now }] := by
          simp [registerHandler, h1, h2]
        rw [hs] at hu
        have heq := List.append_cancel_left hu
        simp only [List.cons.injEq, and_true] at heq
        rw [← heq]
  · intro u hu
    by_cases h1 : (normEmailField abody.email == "") = true
    · rw [show (adminCreateHandler bhash randomPw now nextId store abody).2 = store from by
        simp [adminCreateHandler, h1]] at hu
      exact absurd hu (self_ne_append_single store u)
    · by_cases h2 : store.any (fun v => v.email == normEmailField abody.email) = true
      · rw [show (adminCreateHandler bhash randomPw now nextId store abody).2 = store from by
          simp [adminCreateHandler, h1, h2]] at hu
        exact absurd hu (self_ne_append_single store u)
      · have hs : (adminCreateHandler bhash randomPw now nextId store abody).2 = store ++
            [{ id := nextId
               email := normEmailField abody.email
               passwordHash := bhash (if normStringField abody.password == ""
                 then randomPw else normStringField abody.password)
               fullName := strOrNull (normTrimField abody.fullName)
               role := some (if normEmailField abody.email = "zhangyang_0105@qq.com"
                 then "super_admin" else "user")
               plan := some (if normTrimField abody.plan == ""
                 then "free" else normTrimField abody.plan)
               createdAt := now }] := by
          simp [adminCreateHandler, h1, h2]
        rw [hs] at hu
        have heq := List.append_cancel_left hu
        simp only [List.cons.injEq, and_true] at heq
        rw [← heq]

/-- Witness for C6: registering the bootstrap email (denormalized, with a
requested viewer role in the body) inserts a super_admin row. -/
theorem created_user_role_policy_witness :
    bootUser.role = some (if normEmailField regBodyBoot.email = "zhangyang_0105@qq.com"
      then "super_admin" else "user") :=
  (created_user_role_policy tagHash "k" "RND" 3 9 [] regBodyBoot adminBodyEmpty).1
    bootUser (by decide)

/-- C9: PATCH /me with no fullName string in the body responds 400 and
leaves the store unchanged; otherwise the resulting store has the same
rows in the same order, every row keeps its id, email, password hash,
role, plan and creation time, and rows whose id is not the authenticated
id are completely unchanged (only the target row's full_name may change). -/
theorem patchMe_frame (store : Store) (uid : Nat) (fb : BodyField) :
    (fb = none → patchMeHandler store uid fb =
      ({ status := 400, body := .err "no fields to update" }, store)) ∧
    ((patchMeHandler store uid fb).2.length = store.length) ∧
    (∀ (j : Nat) (old upd : User), store[j]? = some old →
      ((patchMeHandler store uid fb).2)[j]? = some upd →
      upd.id = old.id ∧ upd.email = old.email ∧ upd.passwordHash = old.passwordHash ∧
      upd.role = old.role ∧ upd.plan = old.plan ∧ upd.createdAt = old.createdAt ∧
      (old.id ≠ uid → upd = old)) := by
  have hstore : (patchMeHandler store uid fb).2 = store ∨
      ∃ nv, (patchMeHandler store uid fb).2 =
        store.map (fun v => if v.id == uid then { v with fullName := nv } else v) := by
    cases fb with
    | none => exact Or.inl rfl
    | some raw =>
      cases hf : store.find? (fun u => u.id == uid) with
      | none => exact Or.inl (by simp [patchMeHandler, hf])
      | some current =>
        exact Or.inr ⟨strOrNull (jsTrim raw), by simp [patchMeHandler, hf]⟩
  refine ⟨fun h => by subst h; rfl, ?_, ?_⟩
  · rcases hstore with h | ⟨nv, h⟩ <;> simp [h]
  · intro j old upd hold hupd
    rcases hstore with h | ⟨nv, h⟩
    · rw [h, hold] at hupd
      have heq : old = upd := by simpa using hupd
      subst heq
      exact ⟨rfl, rfl, rfl, rfl, rfl, rfl, fun _ => rfl⟩
    · rw [h, List.getElem?_map, hold] at hupd
      have hupd2 : (if old.id == uid then { old with fullName := nv } else old) = upd := by
        simpa using hupd
      by_cases hid : (old.id == uid) = true
      · rw [if_pos hid] at hupd2
        subst hupd2
        exact ⟨rfl, rfl, rfl, rfl, rfl, rfl,
          fun hne => absurd (by simpa using hid) hne⟩
      · rw [if_neg hid] at hupd2
        subst hupd2
        exact ⟨rfl, rfl, rfl, rfl, rfl, rfl, fun _ => rfl⟩

/-- Witness for C9: updating Alice's name changes only full_name. -/
theorem patchMe_frame_witness :
    patchedAlice.id = sampleAlice.id ∧ patchedAlice.email = sampleAlice.email ∧
    patchedAlice.passwordHash = sampleAlice.passwordHash ∧
    patchedAlice.role = sampleAlice.role ∧ patchedAlice.plan = sampleAlice.plan ∧
    patchedAlice.createdAt = sampleAlice.createdAt ∧
    (sampleAlice.id ≠ 1 → patchedAlice = sampleAlice) :=
  (patchMe_frame [sampleAlice] 1 (some " Bob ")).2.2 0 sampleAlice patchedAlice
    (by decide) (by decide)

/-- C10: a successful POST /admin/users inserts one row; when the body
supplied no (nonempty) password, the stored hash is that of the generated
random password and the 201 body carries it as initialPassword in the
clear; when a password was supplied, its hash is stored and the
initialPassword field is absent. -/
theorem adminCreate_initial_password (bhash : String → String) (randomPw : String)
    (now nextId : Nat) (store : Store) (body : AdminCreateBody)
    (hs : (adminCreateHandler bhash randomPw now nextId store body).1.status = 201) :
    ∃ u : User,
      (adminCreateHandler bhash randomPw now nextId store body).2 = store ++ [u] ∧
      (normStringField body.password = "" →
        u.passwordHash = bhash randomPw ∧
        (adminCreateHandler bhash randomPw now nextId store body).1.body =
          .okCreated (toPublicUser u) (some randomPw)) ∧
      (normStringField body.password ≠ "" →
        u.passwordHash = bhash (normStringField body.password) ∧
        (adminCreateHandler bhash randomPw now nextId store body).1.body =
          .okCreated (toPublicUser u) none) := by
  by_cases h1 : (normEmailField body.email == "") = true
  · exact absurd hs (by simp [adminCreateHandler, h1])
  · by_cases h2 : store.any (fun v => v.email == normEmailField body.email) = true
    · exact absurd hs (by simp [adminCreateHandler, h1, h2])
    · by_cases hp : normStringField body.password = ""
      · refine
          ⟨{ id := nextId
             email := normEmailField body.email
             passwordHash := bhash randomPw
             fullName := strOrNull (normTrimField body.fullName)
             role := some (if normEmailField body.email = "zhangyang_0105@qq.com"
               then "super_admin" else "user")
             plan := some (if normTrimField body.plan == ""
               then "free" else normTrimField body.plan)
             createdAt := now },
           ?_, fun _ => ⟨rfl, ?_⟩, fun hne => absurd hp hne⟩
        · simp [adminCreateHandler, h1, h2, hp]
        · simp [adminCreateHandler, h1, h2, hp, toPublicUser]
      · have hpb : (normStringField body.password == "") = false := by
          simpa using hp
        refine
          ⟨{ id := nextId
             email := normEmailField body.email
             passwordHash := bhash (normStringField body.password)
             fullName := strOrNull (normTrimField body.fullName)
             role := some (if normEmailField body.email = "zhangyang_0105@qq.com"
               then "super_admin" else "user")
             plan := some (if normTrimField body.plan == ""
               then "free" else normTrimField body.plan)
             createdAt := now },
           ?_, fun hc => absurd hc hp, fun _ => ⟨rfl, ?_⟩⟩
        · simp [adminCreateHandler, h1, h2, hpb]
        · simp [adminCreateHandler, h1, h2, hpb, toPublicUser]

/-- Witness for C10: admin-creating carol with no password stores the
hash of the generated password and returns it as initialPassword. -/
theorem adminCreate_initial_password_witness :
    ∃ u : User,
      (adminCreateHandler tagHash "RND12" 7 4 [] adminBodyNoPw).2 = [] ++ [u] ∧
      (normStringField adminBodyNoPw.password = "" →
        u.passwordHash = tagHash "RND12" ∧
        (adminCreateHandler tagHash "RND12" 7 4 [] adminBodyNoPw).1.body =
          .okCreated (toPublicUser u) (some "RND12")) ∧
      (normStringField adminBodyNoPw.password ≠ "" →
        u.passwordHash = tagHash (normStringField adminBodyNoPw.password) ∧
        (adminCreateHandler tagHash "RND12" 7 4 [] adminBodyNoPw).1.body =
          .okCreated (toPublicUser u) none) :=
  adminCreate_initial_password tagHash "RND12" 7 4 [] adminBodyNoPw (by decide)

/-- C7: serialized users never carry the stored password hash. The
serialization type PublicUser has exactly the fields id, email, fullName,
role, plan, createdAt; the projection is insensitive to the stored hash;
the GET /me response is unchanged when every stored hash is replaced
arbitrarily; and every user object in a GET /admin/users response is the
projection of a stored row. -/
theorem user_serialization_no_password_hash :
    (∀ (u : User) (h : String), toPublicUser { u with passwordHash := h } = toPublicUser u) ∧
    (∀ (dec : String → Option SignedToken) (secret : String) (now : Nat)
        (store : Store) (authz : Option String) (f : Nat → String),
      meEndpoint dec secret now (scrubHashes f store) authz =
        meEndpoint dec secret now store authz) ∧
    (∀ (dec : String → Option SignedToken) (secret : String) (now : Nat)
        (store : Store) (authz : Option String) (pus : List PublicUser),
      (adminUsersEndpoint dec secret now store authz).body = .okUsers pus →
      ∀ pu ∈ pus, ∃ u ∈ store, pu = toPublicUser u) := by
  refine ⟨fun u h => rfl, ?_, ?_⟩
  · intro dec secret now store authz f
    unfold meEndpoint
    cases auth dec secret now authz with
    | reject r => rfl
    | proceed ident =>
      dsimp only
      rw [getUserById_scrubHashes]
      cases getUserById store ident.id with
      | none => rfl
      | some u => rfl
  · intro dec secret now store authz pus hbody pu hpu
    cases hctx : adminRouteContext dec secret now store authz with
    | halt r =>
      rw [show adminUsersEndpoint dec secret now store authz = r from by
        simp [adminUsersEndpoint, hctx]] at hbody
      obtain ⟨m, hm⟩ := adminRouteContext_error_shape dec secret now store authz r hctx
      rw [hm] at hbody
      exact absurd hbody (by simp)
    | grant i =>
      have hpus : pus = (store.mergeSort userListOrder).map toPublicUser := by
        have hb := hbody
        simp only [adminUsersEndpoint, hctx, RespBody.okUsers.injEq] at hb
        exact hb.symm
      subst hpus
      obtain ⟨u, hu, hpu2⟩ := List.mem_map.mp hpu
      exact ⟨u, List.mem_mergeSort.mp hu, hpu2.symm⟩

/-- Witness for C7: the single user object GET /admin/users returns for a
one-row store is the projection of that row. -/
theorem user_serialization_no_password_hash_witness :
    ∃ u ∈ ([adminRecordA] : Store), toPublicUser adminRecordA = toPublicUser u := by
  have hbody : (adminUsersEndpoint decAlice "k" 5 [adminRecordA] (some "Bearer tok")).body =
      .okUsers [toPublicUser adminRecordA] := by
    have hctx : adminRouteContext decAlice "k" 5 [adminRecordA] (some "Bearer tok") =
        .grant { id := 1, email := "alice@example.com" } := by decide
    simp [adminUsersEndpoint, hctx, List.mergeSort_singleton]
  exact (user_serialization_no_password_hash).2.2 decAlice "k" 5 [adminRecordA]
    (some "Bearer tok") [toPublicUser adminRecordA] hbody (toPublicUser adminRecordA)
    (by simp)

end ResumeBackend
